import Mathlib

/-!
Shallow embedding of the admin dashboard view-state controller from
`src/app/static/js/admin.js` (pagination over the employee list, tab/section
switching, and the fetch handlers), together with theorems settling the
specification's claims about it.

JS numbers that the controller stores are non-negative integers here
(`currentPage`, `totalEmployees`, page numbers); the spec's data model fixes
them as such. A `fetch` and the subsequent `res.json()` are modelled by a
`FetchOutcome` value handed to the handler: either the pair `(res.ok, data)`
when the body parsed as JSON, or a thrown error (network failure or a body
that is not JSON), which in the source lands in the `catch` block.
-/

namespace AdminJs

/-- Fixed page size: `const pageSize = 7;` (admin.js line 51). -/
def pageSize : Nat := 7

/-- The pagination state variables of admin.js lines 50-52:
`let currentPage = 1;` and `let totalEmployees = 0;`. -/
structure PageState where
  currentPage : Nat
  totalEmployees : Nat
deriving Repr, DecidableEq

/-- `Math.ceil(a / b)` for non-negative integers `a` and positive `b`,
as a natural-number computation. -/
def jsCeil (a b : Nat) : Nat := (a + b - 1) / b

/-- `const totalPages = Math.ceil(totalEmployees / pageSize) || 1;`
(admin.js line 137). In JS, `x || 1` replaces a falsy `0` by `1`. -/
def totalPagesUI (totalEmployees : Nat) : Nat :=
  let t := jsCeil totalEmployees pageSize
  if t = 0 then 1 else t

/-- What `updatePaginationUI` (admin.js lines 136-144) writes to the DOM:
the two page-number displays and the two disabled flags. -/
structure PaginationUI where
  currentPageNum : Nat
  totalPageNum : Nat
  prevDisabled : Bool
  nextDisabled : Bool
deriving Repr, DecidableEq

/-- `updatePaginationUI` (admin.js lines 136-144):
`prevPageBtn.disabled = (currentPage <= 1);`
`nextPageBtn.disabled = (currentPage >= totalPages);`. -/
def updatePaginationUI (s : PageState) : PaginationUI :=
  let totalPages := totalPagesUI s.totalEmployees
  { currentPageNum := s.currentPage
    totalPageNum := totalPages
    prevDisabled := decide (s.currentPage ≤ 1)
    nextDisabled := decide (s.currentPage ≥ totalPages) }

/-- One employee record as consumed by `fetchUsers` (admin.js lines 110-123):
`emp.id`, `emp.name`, optional `emp.member_code` and `emp.image_path`. -/
structure Employee where
  id : Nat
  name : String
  member_code : Option String
  image_path : Option String
deriving Repr, DecidableEq

/-- The parsed JSON body of a `GET /employees` response as read by
`fetchUsers`: `data.employees` (possibly absent), `data.total`, `data.page`. -/
structure EmployeesData where
  employees : Option (List Employee)
  total : Nat
  page : Nat
deriving Repr, DecidableEq

/-- Outcome of `await fetch(...)` followed by `await res.json()`:
either an exception (network error or non-JSON body), caught by the
handler's `catch`, or the pair of `res.ok` and the parsed body. -/
inductive FetchOutcome (α : Type) where
  | thrown : FetchOutcome α
  | response (ok : Bool) (data : α) : FetchOutcome α
deriving Repr, DecidableEq

/-- The content `fetchUsers` leaves in the `userRows` container. -/
inductive UserRowsContent where
  | loading
  | rows (emps : List Employee)
  | noUsers
  | connectionError
deriving Repr, DecidableEq

/-- The JS condition `data.employees && data.employees.length > 0`
(admin.js line 105): an absent field is falsy. -/
def employeesNonempty (e : Option (List Employee)) : Bool :=
  match e with
  | none => false
  | some l => decide (l.length > 0)

/-- Result of one `fetchUsers` invocation: the pagination state afterwards,
what was rendered into `userRows`, and the `updatePaginationUI` output when
that function was called (`none` in the `catch` branch, which does not call
it). -/
structure FetchUsersResult where
  state : PageState
  rendered : UserRowsContent
  ui : Option PaginationUI
deriving Repr, DecidableEq

/-- `fetchUsers` (admin.js lines 97-134), given the pagination state at entry
and the outcome of the awaited fetch. Success branch (line 105): requires
`res.ok` and a non-empty `data.employees`; it sets `totalEmployees = data.total`
and `currentPage = data.page`, renders the rows and updates the pagination UI.
The `else` branch (lines 125-129) renders the "No users found." placeholder,
sets `totalEmployees = 0` and updates the pagination UI, leaving `currentPage`
untouched. The `catch` branch (lines 130-133) renders the
"Error connecting to server." placeholder and touches no state. -/
def fetchUsers (s : PageState) (outcome : FetchOutcome EmployeesData) :
    FetchUsersResult :=
  match outcome with
  | .thrown => { state := s, rendered := .connectionError, ui := none }
  | .response ok data =>
    if ok && employeesNonempty data.employees then
      let s' : PageState :=
        { totalEmployees := data.total, currentPage := data.page }
      { state := s'
        rendered := .rows (data.employees.getD [])
        ui := some (updatePaginationUI s') }
    else
      let s' : PageState := { s with totalEmployees := 0 }
      { state := s'
        rendered := .noUsers
        ui := some (updatePaginationUI s') }

/-- The `prevPageBtn` click listener (admin.js lines 261-267):
`if (currentPage > 1) { fetchUsers(currentPage - 1); }`.
Returns the page a fetch is issued for, or `none` when no request is made. -/
def prevPageClick (s : PageState) : Option Nat :=
  if s.currentPage > 1 then some (s.currentPage - 1) else none

/-- The `nextPageBtn` click listener (admin.js lines 269-276):
`const totalPages = Math.ceil(totalEmployees / pageSize);`
(note: no `|| 1` floor here, unlike `updatePaginationUI`)
`if (currentPage < totalPages) { fetchUsers(currentPage + 1); }`.
The bound is recomputed from `totalEmployees` at click time. -/
def nextPageClick (s : PageState) : Option Nat :=
  let totalPages := jsCeil s.totalEmployees pageSize
  if s.currentPage < totalPages then some (s.currentPage + 1) else none

/-- The navigation tabs wired in admin.js (lines 225-254). -/
inductive Tab where
  | users
  | club
  | attendance
  | scan
  | logout
deriving Repr, DecidableEq

/-- The two top-level sections of the admin page. -/
inductive SectionId where
  | employees
  | club
deriving Repr, DecidableEq

/-- Which sections are currently visible in the DOM. -/
structure SectionVisibility where
  employeesVisible : Bool
  clubVisible : Bool
deriving Repr, DecidableEq

/-- `showSection(targetSection)` (admin.js lines 55-69): every section in
`[employeesSection, clubSection]` is hidden, then the target (when non-null)
is shown. The result does not depend on the previous visibility. -/
def showSection (target : Option SectionId) (_v : SectionVisibility) :
    SectionVisibility :=
  match target with
  | none => { employeesVisible := false, clubVisible := false }
  | some .employees => { employeesVisible := true, clubVisible := false }
  | some .club => { employeesVisible := false, clubVisible := true }

/-- `setActiveTab(activeTab)` (admin.js lines 71-74): the `nav-active` class
is removed from every `.nav-tab`, then added to the given tab when non-null.
The state is the characteristic function of the set of tabs carrying
`nav-active`. -/
def setActiveTab (active : Option Tab) (_nav : Tab → Bool) : Tab → Bool :=
  fun t =>
    match active with
    | some a => decide (t = a)
    | none => false

/-- Effects a click handler emits besides mutating the controller state. -/
inductive Effect where
  | fetchEmployeesPage (page : Nat) (size : Nat)
  | fetchClubsList
  | navigate (path : String)
deriving Repr, DecidableEq

/-- The whole view-state of the admin controller: which tabs carry
`nav-active`, which sections are visible, and the pagination state. -/
structure AdminState where
  nav : Tab → Bool
  vis : SectionVisibility
  page : PageState

/-- The `usersTab` click listener (admin.js lines 225-232):
`setActiveTab(usersTab); showSection(employeesSection); currentPage = 1;
fetchUsers(currentPage);`. -/
def usersTabClick (s : AdminState) : AdminState × List Effect :=
  ({ nav := setActiveTab (some .users) s.nav
     vis := showSection (some .employees) s.vis
     page := { s.page with currentPage := 1 } },
   [Effect.fetchEmployeesPage 1 pageSize])

/-- The `clubTab` click listener (admin.js lines 234-241):
`setActiveTab(clubTab); showSection(clubSection); fetchClubs();`. -/
def clubTabClick (s : AdminState) : AdminState × List Effect :=
  ({ nav := setActiveTab (some .club) s.nav
     vis := showSection (some .club) s.vis
     page := s.page },
   [Effect.fetchClubsList])

/-- The `attendanceTab` click listener (admin.js lines 243-245):
`window.location.href = "/attendance";`. -/
def attendanceTabClick (s : AdminState) : AdminState × List Effect :=
  (s, [Effect.navigate "/attendance"])

/-- The `scanTab` click listener (admin.js lines 247-249):
`window.location.href = "/scan";`. -/
def scanTabClick (s : AdminState) : AdminState × List Effect :=
  (s, [Effect.navigate "/scan"])

/-- The `logoutTab` click listener (admin.js lines 252-254):
`window.location.href = "/logout";`. -/
def logoutTabClick (s : AdminState) : AdminState × List Effect :=
  (s, [Effect.navigate "/logout"])

/-- Dispatch of a tab selection to the corresponding click listener
(the spec's `selectTab(tabId)` operation). -/
def selectTab (t : Tab) (s : AdminState) : AdminState × List Effect :=
  match t with
  | .users => usersTabClick s
  | .club => clubTabClick s
  | .attendance => attendanceTabClick s
  | .scan => scanTabClick s
  | .logout => logoutTabClick s

/-- A tab identifier that maps to a section (the spec's section-mapped tabs). -/
def sectionMapped (t : Tab) : Prop := t = Tab.users ∨ t = Tab.club

instance (t : Tab) : Decidable (sectionMapped t) := by
  unfold sectionMapped; infer_instance

/-- The initial setup (admin.js lines 77-82), run at script load whenever
`usersTab` is present: `setActiveTab(usersTab); showSection(employeesSection);
currentPage = 1; fetchUsers(currentPage);` — statement for statement the body
of the `usersTab` click listener, applied to whatever state the raw DOM is in. -/
def initialAdminState (dom : AdminState) : AdminState := (usersTabClick dom).1

/-- Fold a sequence of tab selections over the state, discarding effects. -/
def runTabs (ts : List Tab) (s : AdminState) : AdminState :=
  ts.foldl (fun st t => (selectTab t st).1) s

/-- Exactly one of the two sections is visible. -/
def oneSectionVisible (v : SectionVisibility) : Prop :=
  v.employeesVisible ≠ v.clubVisible

/-- Exactly one tab carries the `nav-active` class. -/
def oneTabActive (nav : Tab → Bool) : Prop :=
  ∃! t, nav t = true

/-- A concrete employee record, for evaluating the handlers on closed inputs. -/
def sampleEmployee : Employee :=
  { id := 1, name := "A", member_code := none, image_path := none }

/-- A concrete raw DOM state, for evaluating the controller on closed inputs:
no tab carries `nav-active`, no section is visible, and the pagination
variables hold their declared initial values. -/
def blankAdminState : AdminState :=
  { nav := fun _ => false
    vis := { employeesVisible := false, clubVisible := false }
    page := { currentPage := 1, totalEmployees := 0 } }

end AdminJs

namespace AdminJs

/-- The displayed page count equals one floored ceiling division. -/
theorem totalPagesUI_eq_max (n : Nat) :
    totalPagesUI n = max 1 (jsCeil n pageSize) := by
  unfold totalPagesUI
  by_cases h : jsCeil n pageSize = 0
  · simp [h]
  · simp only [h, if_false]
    omega

/-- C1: for every non-negative `totalCount` and the fixed `pageSize = 7`, the
page count displayed by `updatePaginationUI` equals
`max(1, ceil(totalCount / pageSize))`; in particular a collection of 0 items
reports 1 page. -/
theorem claim_C1 :
    (∀ totalCount : Nat,
      totalPagesUI totalCount = max 1 (totalCount ⌈/⌉ pageSize)) ∧
    totalPagesUI 0 = 1 := by
  refine ⟨fun n => ?_, rfl⟩
  rw [Nat.ceilDiv_eq_add_pred_div]
  exact totalPagesUI_eq_max n

/-- C3: the prev-page click listener issues no fetch when `currentPage = 1`,
and the next-page click listener issues no fetch when `currentPage` equals the
displayed `totalPages`; the next-page bound is recomputed from the
`totalEmployees` held in the state at click time. -/
theorem claim_C3 (s : PageState) :
    (s.currentPage = 1 → prevPageClick s = none) ∧
    (s.currentPage = totalPagesUI s.totalEmployees → nextPageClick s = none) := by
  constructor
  · intro h
    simp [prevPageClick, h]
  · intro h
    rw [totalPagesUI_eq_max] at h
    unfold nextPageClick
    rw [if_neg]
    omega

/-- Witness for C3 at `currentPage = 1` (prev side) and at
`currentPage = 2 = totalPagesUI 14` (next side). -/
theorem claim_C3_witness :
    prevPageClick ⟨1, 14⟩ = none ∧ nextPageClick ⟨2, 14⟩ = none :=
  ⟨(claim_C3 ⟨1, 14⟩).1 rfl, (claim_C3 ⟨2, 14⟩).2 (by decide)⟩

/-- C4: whenever a page-load response is processed (success or empty/non-ok
branch), the pagination UI is updated so that the prev control is disabled iff
`currentPage ≤ 1` and the next control is disabled iff
`currentPage ≥ totalPages`. -/
theorem claim_C4 (s : PageState) (ok : Bool) (data : EmployeesData) :
    ∃ u, (fetchUsers s (.response ok data)).ui = some u ∧
      (u.prevDisabled = true ↔
        (fetchUsers s (.response ok data)).state.currentPage ≤ 1) ∧
      (u.nextDisabled = true ↔
        totalPagesUI (fetchUsers s (.response ok data)).state.totalEmployees ≤
          (fetchUsers s (.response ok data)).state.currentPage) := by
  simp only [fetchUsers]
  by_cases hc : (ok && employeesNonempty data.employees) = true
  · rw [if_pos hc]
    exact ⟨_, rfl, by simp [updatePaginationUI], by simp [updatePaginationUI]⟩
  · rw [if_neg hc]
    exact ⟨_, rfl, by simp [updatePaginationUI], by simp [updatePaginationUI]⟩

/-- C10: for `currentPage ≥ 1`, the next-click guard (which uses the ceiling
without the `|| 1` floor) issues a fetch exactly when the display computation
(which uses the floored ceiling) leaves the next button enabled. -/
theorem claim_C10 (cp tc : Nat) (h : 1 ≤ cp) :
    ((nextPageClick ⟨cp, tc⟩).isSome = true) ↔
      ((updatePaginationUI ⟨cp, tc⟩).nextDisabled = false) := by
  simp only [nextPageClick, updatePaginationUI]
  rw [totalPagesUI_eq_max]
  by_cases hlt : cp < jsCeil tc pageSize
  · simp only [hlt, if_true, Option.isSome_some, true_iff]
    simp only [decide_eq_false_iff_not, ge_iff_le, not_le]
    omega
  · simp only [hlt, if_false, Option.isSome_none, Bool.false_eq_true, false_iff]
    simp only [decide_eq_false_iff_not, ge_iff_le, not_le, not_lt]
    omega

/-- Witness for C10 at `currentPage = 1`, `totalEmployees = 14`. -/
theorem claim_C10_witness :
    ((nextPageClick ⟨1, 14⟩).isSome = true) ↔
      ((updatePaginationUI ⟨1, 14⟩).nextDisabled = false) :=
  claim_C10 1 14 (by decide)

end AdminJs

namespace AdminJs

/-- C2 counterexample: from the reachable state `currentPage = 2`,
`totalEmployees = 14`, a successful fetch (`res.ok = true`) whose body carries
an empty employees list is applied by the `else` branch: `totalEmployees`
becomes `0`, `currentPage` stays `2`, yet `totalPagesUI 0 = 1`, so the
invariant `1 ≤ currentPage ≤ totalPages` fails after this successful load. -/
theorem claim_C2_counterexample :
    ¬ (1 ≤ (fetchUsers ⟨2, 14⟩
              (.response true ⟨some [], 0, 0⟩)).state.currentPage ∧
       (fetchUsers ⟨2, 14⟩
              (.response true ⟨some [], 0, 0⟩)).state.currentPage ≤
         totalPagesUI (fetchUsers ⟨2, 14⟩
              (.response true ⟨some [], 0, 0⟩)).state.totalEmployees) := by
  decide

/-- C2 amended: after a successful `onPageLoaded` that applies a response with
a non-empty employees list whose reported page lies within
`1 ≤ page ≤ max(1, ceil(total / 7))`, the invariant
`1 ≤ currentPage ≤ totalPages` holds. (A success response with zero records
while `currentPage > 1` instead leaves `currentPage` above `totalPages = 1`.) -/
theorem claim_C2_amended (s : PageState) (ok : Bool) (data : EmployeesData)
    (hok : ok = true) (hemp : employeesNonempty data.employees = true)
    (hlo : 1 ≤ data.page) (hhi : data.page ≤ totalPagesUI data.total) :
    1 ≤ (fetchUsers s (.response ok data)).state.currentPage ∧
    (fetchUsers s (.response ok data)).state.currentPage ≤
      totalPagesUI (fetchUsers s (.response ok data)).state.totalEmployees := by
  subst hok
  simp only [fetchUsers]
  rw [if_pos (by simp [hemp])]
  exact ⟨hlo, hhi⟩

/-- Witness for the amended C2: a one-employee page-1 response over
`total = 7` keeps the invariant. -/
theorem claim_C2_amended_witness :
    1 ≤ (fetchUsers ⟨1, 0⟩
          (.response true ⟨some [sampleEmployee], 7, 1⟩)).state.currentPage ∧
    (fetchUsers ⟨1, 0⟩
          (.response true ⟨some [sampleEmployee], 7, 1⟩)).state.currentPage ≤
      totalPagesUI (fetchUsers ⟨1, 0⟩
          (.response true ⟨some [sampleEmployee], 7, 1⟩)).state.totalEmployees :=
  claim_C2_amended ⟨1, 0⟩ true ⟨some [sampleEmployee], 7, 1⟩ rfl
    (by decide) (by decide) (by decide)

/-- C5 counterexample: a non-success HTTP status (`res.ok = false`) whose body
still parses as JSON does not leave the state unchanged with the
connectivity-error placeholder: from `currentPage = 1`, `totalEmployees = 7`
it resets `totalEmployees` to `0` and renders the "No users found."
placeholder instead. -/
theorem claim_C5_counterexample :
    ¬ ((fetchUsers ⟨1, 7⟩
          (.response false ⟨some [sampleEmployee], 7, 1⟩)).state =
            (⟨1, 7⟩ : PageState) ∧
       (fetchUsers ⟨1, 7⟩
          (.response false ⟨some [sampleEmployee], 7, 1⟩)).rendered =
            UserRowsContent.connectionError) := by
  decide

/-- C5 amended: for every page fetch that throws (network failure, or a
response body that fails to parse as JSON), `PageState` is left unchanged at
its last-known-good values, the inline connectivity-error placeholder replaces
the list, nothing is thrown to the caller, and no retry is issued (the `catch`
branch also leaves the pagination UI untouched). -/
theorem claim_C5_amended (s : PageState) :
    (fetchUsers s .thrown).state = s ∧
    (fetchUsers s .thrown).rendered = UserRowsContent.connectionError ∧
    (fetchUsers s .thrown).ui = none :=
  ⟨rfl, rfl, rfl⟩

/-- C9: for every response whose HTTP status is non-ok, or whose `employees`
field is missing or an empty sequence, `fetchUsers` sets `totalEmployees` to
`0`, leaves `currentPage` unchanged, and renders the informational
"No users found." placeholder rather than the connectivity-error one. -/
theorem claim_C9 (s : PageState) (ok : Bool) (data : EmployeesData)
    (h : ok = false ∨ data.employees = none ∨ data.employees = some []) :
    (fetchUsers s (.response ok data)).state.totalEmployees = 0 ∧
    (fetchUsers s (.response ok data)).state.currentPage = s.currentPage ∧
    (fetchUsers s (.response ok data)).rendered = UserRowsContent.noUsers := by
  have hc : (ok && employeesNonempty data.employees) = false := by
    rcases h with h | h | h <;> simp [h, employeesNonempty]
  simp only [fetchUsers]
  rw [if_neg (by simp [hc])]
  exact ⟨rfl, rfl, rfl⟩

/-- Witness for C9: a non-ok JSON response while on page 2 of 14 records. -/
theorem claim_C9_witness :
    (fetchUsers ⟨2, 14⟩
      (.response false ⟨some [sampleEmployee], 7, 1⟩)).state.totalEmployees = 0 ∧
    (fetchUsers ⟨2, 14⟩
      (.response false ⟨some [sampleEmployee], 7, 1⟩)).state.currentPage =
        (PageState.mk 2 14).currentPage ∧
    (fetchUsers ⟨2, 14⟩
      (.response false ⟨some [sampleEmployee], 7, 1⟩)).rendered =
        UserRowsContent.noUsers :=
  claim_C9 ⟨2, 14⟩ false ⟨some [sampleEmployee], 7, 1⟩ (Or.inl rfl)

/-- C6: selecting the users tab activates it, shows the employees section
(hiding the club section), resets `currentPage` to 1 and issues the fetch of
page 1; selecting the club tab activates it, shows the club section (hiding
the employees section), leaves the pagination state alone and issues exactly
one unpaged club-list fetch. -/
theorem claim_C6 (s : AdminState) :
    ((selectTab .users s).1.vis.employeesVisible = true ∧
     (selectTab .users s).1.vis.clubVisible = false ∧
     (selectTab .users s).1.page.currentPage = 1 ∧
     (∀ t, (selectTab .users s).1.nav t = true ↔ t = Tab.users) ∧
     (selectTab .users s).2 = [Effect.fetchEmployeesPage 1 pageSize]) ∧
    ((selectTab .club s).1.vis.employeesVisible = false ∧
     (selectTab .club s).1.vis.clubVisible = true ∧
     (selectTab .club s).1.page = s.page ∧
     (∀ t, (selectTab .club s).1.nav t = true ↔ t = Tab.club) ∧
     (selectTab .club s).2 = [Effect.fetchClubsList]) := by
  refine ⟨⟨rfl, rfl, rfl, fun t => ?_, rfl⟩, rfl, rfl, rfl, fun t => ?_, rfl⟩ <;>
    simp [selectTab, usersTabClick, clubTabClick, setActiveTab]

/-- C8: each pass-through navigation tab (attendance, scan, logout) leaves the
whole controller state — active-tab marking, section visibility and pagination
state — unchanged, and only signals a full navigation to its fixed path. -/
theorem claim_C8 (s : AdminState) :
    selectTab Tab.attendance s = (s, [Effect.navigate "/attendance"]) ∧
    selectTab Tab.scan s = (s, [Effect.navigate "/scan"]) ∧
    selectTab Tab.logout s = (s, [Effect.navigate "/logout"]) :=
  ⟨rfl, rfl, rfl⟩

/-- A section-mapped tab click establishes the exclusivity invariant from any
prior state: exactly one section visible and exactly one tab active. -/
theorem selectTab_sectionMapped_exclusive (t : Tab) (ht : sectionMapped t)
    (s : AdminState) :
    oneSectionVisible (selectTab t s).1.vis ∧ oneTabActive (selectTab t s).1.nav := by
  rcases ht with h | h <;> subst h
  · refine ⟨by simp [selectTab, usersTabClick, showSection, oneSectionVisible],
      Tab.users, by simp [selectTab, usersTabClick, setActiveTab], fun y hy => ?_⟩
    simpa [selectTab, usersTabClick, setActiveTab] using hy
  · refine ⟨by simp [selectTab, clubTabClick, showSection, oneSectionVisible],
      Tab.club, by simp [selectTab, clubTabClick, setActiveTab], fun y hy => ?_⟩
    simpa [selectTab, clubTabClick, setActiveTab] using hy

/-- The exclusivity invariant is preserved along any run of section-mapped
tab selections. -/
theorem runTabs_sectionMapped_exclusive (ts : List Tab) (s : AdminState)
    (hs : oneSectionVisible s.vis ∧ oneTabActive s.nav)
    (h : ∀ t ∈ ts, sectionMapped t) :
    oneSectionVisible (runTabs ts s).vis ∧ oneTabActive (runTabs ts s).nav := by
  induction ts generalizing s with
  | nil => exact hs
  | cons t rest ih =>
    exact ih (selectTab t s).1
      (selectTab_sectionMapped_exclusive t (h t (List.mem_cons_self t rest)) s)
      (fun x hx => h x (List.mem_cons_of_mem t hx))

/-- C7: starting from the initial setup (which performs a users-tab selection)
over any raw DOM state, after any sequence of section-mapped tab selections
exactly one of the two sections is visible and exactly one tab is marked
visually active. -/
theorem claim_C7 (dom : AdminState) (ts : List Tab)
    (h : ∀ t ∈ ts, sectionMapped t) :
    oneSectionVisible (runTabs ts (initialAdminState dom)).vis ∧
    oneTabActive (runTabs ts (initialAdminState dom)).nav :=
  runTabs_sectionMapped_exclusive ts (initialAdminState dom)
    (selectTab_sectionMapped_exclusive Tab.users (Or.inl rfl) dom) h

/-- Witness for C7: the run club, users, club from the initial state. -/
theorem claim_C7_witness :
    oneSectionVisible
      (runTabs [Tab.club, Tab.users, Tab.club] (initialAdminState blankAdminState)).vis ∧
    oneTabActive
      (runTabs [Tab.club, Tab.users, Tab.club] (initialAdminState blankAdminState)).nav :=
  claim_C7 blankAdminState [Tab.club, Tab.users, Tab.club] (by decide)

end AdminJs
